import Mathlib

/-!
Verification development for the terraform-provider-aws sources in this
repository: the ElastiCache user-group lifecycle handlers and their
state-reconciliation polling call sites
(`internal/service/elasticache/user_group.go`), and the Redshift
scheduled-action target-action converters.

The poll-until-desired-state loop itself (`resource.StateChangeConf.WaitForState`)
is a dependency of this repository, not part of its sources; it is modelled
from the spec (section 4.1) below.  Everything else is translated from the
Go sources: the call-site poll policies, the status refresh function, the
lifecycle handlers' error-message wrappers, the update handler's
modify/wait/tag logic, and the Redshift expand/flatten converters.
-/

namespace ElastiCacheUserGroup

/-- A `StatusSnapshot` is the result of one refresh: the payload is opaque,
so the model keeps only the status label (`*v.Status` in
`resourceAwsElasticacheUserGroupStateRefreshFunc`). -/
structure StatusSnapshot where
  status : String
deriving DecidableEq, Repr

/-- Result of one call of the refresh closure, translated from
`resourceAwsElasticacheUserGroupStateRefreshFunc` (user_group.go lines
251-269): an SDK error propagates (`return nil, "", err`), a missing user
group yields the "not found" signal (`return nil, "", nil`), and otherwise
the group's status label is returned (`return v, *v.Status, nil`). -/
inductive RefreshResult where
  | found (snap : StatusSnapshot)
  | notFound
  | failure (err : String)
deriving DecidableEq, Repr

/-- Poll policy, translated from the `resource.StateChangeConf` literals in
user_group.go: pending and target status-label lists, overall timeout,
minimum poll interval (`MinTimeout`), and initial delay (`Delay`), all in
seconds.  `absenceIsSuccess` is the spec's absence-as-success request
(section 4.1 step 2), which the delete call site requests via its empty
`Target` list. -/
structure PollPolicy where
  pending : List String
  target : List String
  timeout : Int
  minInterval : Nat
  initialDelay : Nat
  absenceIsSuccess : Bool
deriving DecidableEq, Repr

/-- The classification of one observed status label. -/
inductive StatusClass where
  | targetClass
  | pendingClass
  | unexpectedClass
deriving DecidableEq, Repr

/-- Modelled from the spec (section 4.1 step 2): a status label is compared
against the target and pending string sets by exact, case-sensitive string
equality; a label in neither set is unexpected. -/
def classify (p : PollPolicy) (s : String) : StatusClass :=
  if p.target.contains s then .targetClass
  else if p.pending.contains s then .pendingClass
  else .unexpectedClass

/-- Terminal poll outcome (spec section 3, `PollOutcome`): success with the
final snapshot, success by absence (delete flows), an unexpected-state
abort, a timeout carrying the last observed snapshot (if any), or a
propagated refresh failure. -/
inductive PollOutcome where
  | success (last : StatusSnapshot)
  | successAbsent
  | unexpectedState (snap : StatusSnapshot)
  | timeoutErr (last : Option StatusSnapshot)
  | refreshErr (err : String)
deriving DecidableEq, Repr

/-- Modelled from the spec (section 4.1): the poller's loop.  `seq` is the
sequence of successive refresh results, `last` the last observed snapshot,
`elapsed` the wall-clock seconds since polling began, `calls` the number of
refresh calls made so far.  Before each refresh the elapsed time is checked
against the timeout (a zero or negative timeout therefore fails on the
first check); a pending status sleeps `minInterval` and repeats; a target
status, an unexpected status, a refresh failure, and (when the policy
requests it) absence are all terminal.  A refresh returning "not found"
when absence is not a success keeps waiting.  The result pairs the outcome
(`none` when the finite refresh sequence was exhausted while still waiting)
with the number of refresh calls made. -/
def pollAux (p : PollPolicy) :
    List RefreshResult → Option StatusSnapshot → Nat → Nat →
    Option PollOutcome × Nat
  | seq, last, elapsed, calls =>
    if p.timeout ≤ (elapsed : Int) then (some (.timeoutErr last), calls)
    else
      match seq with
      | [] => (none, calls)
      | .failure e :: _ => (some (.refreshErr e), calls + 1)
      | .notFound :: rest =>
        if p.absenceIsSuccess then (some .successAbsent, calls + 1)
        else pollAux p rest last (elapsed + p.minInterval) (calls + 1)
      | .found snap :: rest =>
        match classify p snap.status with
        | .targetClass => (some (.success snap), calls + 1)
        | .pendingClass =>
          pollAux p rest (some snap) (elapsed + p.minInterval) (calls + 1)
        | .unexpectedClass => (some (.unexpectedState snap), calls + 1)

/-- Modelled from the spec (section 4.1): `Poll` waits the initial delay,
then runs the refresh/classify loop. -/
def poll (p : PollPolicy) (seq : List RefreshResult) :
    Option PollOutcome × Nat :=
  pollAux p seq none p.initialDelay 0

/-- The pending states shared by the create and update call sites
(`resourceAwsElasticacheUserGroupPendingStates`, user_group.go lines 64-67). -/
def resourceAwsElasticacheUserGroupPendingStates : List String :=
  ["creating", "modifying"]

/-- The create call site's poll policy (user_group.go lines 95-102):
pending `["creating","modifying"]`, target `["active"]`, configurable
timeout, `MinTimeout` 10s, `Delay` 30s; absence is not a success. -/
def createPollPolicy (timeout : Int) : PollPolicy where
  pending := resourceAwsElasticacheUserGroupPendingStates
  target := ["active"]
  timeout := timeout
  minInterval := 10
  initialDelay := 30
  absenceIsSuccess := false

/-- The update call site's poll policy (user_group.go lines 190-197):
identical to the create call site's. -/
def updatePollPolicy (timeout : Int) : PollPolicy where
  pending := resourceAwsElasticacheUserGroupPendingStates
  target := ["active"]
  timeout := timeout
  minInterval := 10
  initialDelay := 30
  absenceIsSuccess := false

/-- The delete call site's poll policy (user_group.go lines 230-237):
pending `["deleting"]`, empty target list, `MinTimeout` 10s, `Delay` 30s;
the empty `Target` list is how the delete flow requests
absence-as-success. -/
def deletePollPolicy (timeout : Int) : PollPolicy where
  pending := ["deleting"]
  target := []
  timeout := timeout
  minInterval := 10
  initialDelay := 30
  absenceIsSuccess := true

/-- The last snapshot observed after a run of status labels, starting from
a previously observed snapshot. -/
def lastSnap : List String → Option StatusSnapshot → Option StatusSnapshot
  | [], last => last
  | s :: pre, _ => lastSnap pre (some ⟨s⟩)

/-- `sub` occurs as a contiguous substring of `s`. -/
def strContains (s sub : String) : Prop :=
  sub.data <:+: s.data

instance (s sub : String) : Decidable (strContains s sub) := by
  unfold strContains
  infer_instance

/-- Modelled from the spec: the poller (`resource.StateChangeConf`) is a
dependency, not part of this repository's sources; per spec sections 3 and
7 its timeout and unexpected-state failures render an error message
carrying the last observed status label, and a refresh failure propagates
its own message. -/
def pollFailureMessage : PollOutcome → Option String
  | .timeoutErr (some snap) =>
    some ("timeout while waiting for state, last status: " ++ snap.status)
  | .timeoutErr none => some "timeout while waiting for state"
  | .unexpectedState snap => some ("unexpected state: " ++ snap.status)
  | .refreshErr e => some e
  | .success _ => none
  | .successAbsent => none

/-- The create handler's wrapper for a failed wait (user_group.go line
107): `fmt.Errorf("error creating ElastiCache User Group: %w", err)`.
The resource identifier is not part of the format string. -/
def createErrorMessage (inner : String) : String :=
  "error creating ElastiCache User Group: " ++ inner

/-- The update handler's wrapper for a failed wait (user_group.go line
202): `fmt.Errorf("error updating ElastiCache User Group (%q): %w",
d.Id(), err)`; `%q` renders the identifier in double quotes. -/
def updateErrorMessage (id inner : String) : String :=
  "error updating ElastiCache User Group (\"" ++ id ++ "\"): " ++ inner

/-- The delete handler's wrapper for a failed wait (user_group.go line
245): `fmt.Errorf("ElastiCache User Group cannot be deleted: %w", err)`.
The resource identifier is not part of the format string. -/
def deleteErrorMessage (inner : String) : String :=
  "ElastiCache User Group cannot be deleted: " ++ inner

/-- A remote mutation the update handler may perform, in order:
`ModifyUserGroup`, the availability wait, and the tag update
(`resourceAwsElasticacheUserGroupUpdate`, user_group.go lines 161-217). -/
inductive RemoteAction where
  | modifyUserGroup (toAdd toRemove : List String)
  | waitForAvailable
  | updateTags
deriving DecidableEq, Repr

/-- Terraform's `Set.Difference`: the elements of `a` that are not in `b`
(membership by string equality). -/
def setDifference (a b : List String) : List String :=
  a.filter (fun x => !b.contains x)

/-- Translated from `resourceAwsElasticacheUserGroupUpdate` (user_group.go
lines 161-217): when anything besides `tags_all` changed, the old/new
`user_ids` sets are diffed; only when users to add or users to remove are
non-empty is `ModifyUserGroup` issued followed by the availability wait;
independently, a `tags_all` change (in the commercial partition) updates
tags.  The result is the list of remote mutations performed, in order. -/
def resourceAwsElasticacheUserGroupUpdateActions
    (oldIds newIds : List String)
    (hasChangeExceptTagsAll hasChangeUserIds tagsAllChanged
      commercialPartition : Bool) : List RemoteAction :=
  (if hasChangeExceptTagsAll then
    let usersRemove := if hasChangeUserIds then setDifference oldIds newIds else []
    let usersAdd := if hasChangeUserIds then setDifference newIds oldIds else []
    if usersAdd.length > 0 ∨ usersRemove.length > 0 then
      [.modifyUserGroup usersAdd usersRemove, .waitForAvailable]
    else []
  else [])
  ++ (if tagsAllChanged ∧ commercialPartition then [.updateTags] else [])

end ElastiCacheUserGroup

namespace RedshiftScheduledAction

/-- A dynamically typed Go value as stored in a `map[string]interface{}`
schema map.  The schema of `target_action` (src/unnamed/part_000 lines
55-91) stores `action`, `cluster_identifier`, `cluster_type` and
`node_type` as strings (`TypeString`), `classic` as a bool (`TypeBool`)
and `number_of_nodes` as an int (`TypeInt`, which the terraform SDK holds
as a Go `int`, distinct from `int64`). -/
inductive GoVal where
  | str (s : String)
  | boolean (b : Bool)
  | goInt (i : Int)
  | goInt64 (i : Int)
deriving DecidableEq, Repr

/-- The `target_action` configuration map. -/
def GoMap := List (String × GoVal)

/-- Go's `v.(string)` type assertion: panics (`none`) unless the value is
a string. -/
def asGoString : Option GoVal → Option String
  | some (.str s) => some s
  | _ => none

/-- Go's `v.(bool)` type assertion: panics (`none`) unless the value is a
bool. -/
def asGoBool : Option GoVal → Option Bool
  | some (.boolean b) => some b
  | _ => none

/-- Go's `v.(int64)` type assertion: panics (`none`) unless the value is
dynamically an `int64`; in particular it panics on a Go `int`. -/
def asGoInt64 : Option GoVal → Option Int
  | some (.goInt64 i) => some i
  | _ => none

/-- `redshift.ScheduledActionTypeValuesPauseCluster`. -/
def scheduledActionTypeValuesPauseCluster : String := "PauseCluster"

/-- `redshift.ScheduledActionTypeValuesResumeCluster`. -/
def scheduledActionTypeValuesResumeCluster : String := "ResumeCluster"

/-- `redshift.ScheduledActionTypeValuesResizeCluster`. -/
def scheduledActionTypeValuesResizeCluster : String := "ResizeCluster"

/-- `redshift.PauseClusterMessage` (only the field the converters use). -/
structure PauseClusterMessage where
  clusterIdentifier : String
deriving DecidableEq, Repr

/-- `redshift.ResumeClusterMessage`. -/
structure ResumeClusterMessage where
  clusterIdentifier : String
deriving DecidableEq, Repr

/-- `redshift.ResizeClusterMessage`. -/
structure ResizeClusterMessage where
  clusterIdentifier : String
  classic : Bool
  clusterType : String
  nodeType : String
  numberOfNodes : Int
deriving DecidableEq, Repr

/-- `redshift.ScheduledActionType`: at most one of the three variant
messages is set. -/
structure ScheduledActionType where
  pauseCluster : Option PauseClusterMessage
  resumeCluster : Option ResumeClusterMessage
  resizeCluster : Option ResizeClusterMessage
deriving DecidableEq, Repr

/-- Translated from `expandRedshiftScheduledActionTargetAction`
(src/unnamed/part_000 lines 217-248).  A `nil` configured value returns
`nil`; otherwise the map is switched on its `action` string.  Each Go type
assertion may panic; a panic is modelled as the outer `none`.  The resize
branch asserts `number_of_nodes` with `.(int64)` exactly as the source
does. -/
def expandRedshiftScheduledActionTargetAction (configured : Option GoMap) :
    Option (Option ScheduledActionType) :=
  match configured with
  | none => some none
  | some p =>
    match asGoString (p.lookup "action") with
    | none => none
    | some act =>
      if act = scheduledActionTypeValuesPauseCluster then
        match asGoString (p.lookup "cluster_identifier") with
        | none => none
        | some ci =>
          some (some
            { pauseCluster := some { clusterIdentifier := ci }
              resumeCluster := none
              resizeCluster := none })
      else if act = scheduledActionTypeValuesResumeCluster then
        match asGoString (p.lookup "cluster_identifier") with
        | none => none
        | some ci =>
          some (some
            { pauseCluster := none
              resumeCluster := some { clusterIdentifier := ci }
              resizeCluster := none })
      else if act = scheduledActionTypeValuesResizeCluster then
        match asGoString (p.lookup "cluster_identifier"),
            asGoBool (p.lookup "classic"),
            asGoString (p.lookup "cluster_type"),
            asGoString (p.lookup "node_type"),
            asGoInt64 (p.lookup "number_of_nodes") with
        | some ci, some cl, some ct, some nt, some nn =>
          some (some
            { pauseCluster := none
              resumeCluster := none
              resizeCluster := some
                { clusterIdentifier := ci
                  classic := cl
                  clusterType := ct
                  nodeType := nt
                  numberOfNodes := nn } })
        | _, _, _, _, _ => none
      else some none

/-- Translated from `flattenRedshiftScheduledActionType`
(src/unnamed/part_000 lines 250-280): a `nil` input flattens to the empty
map; otherwise the resume, pause and resize variants are checked in that
order, each present variant overwriting the map wholesale; the flattened
`number_of_nodes` is the `int64` value. -/
def flattenRedshiftScheduledActionType
    (scheduledActionType : Option ScheduledActionType) : GoMap :=
  match scheduledActionType with
  | none => []
  | some t =>
    let m : GoMap := []
    let m : GoMap :=
      match t.resumeCluster with
      | some r =>
        [("action", .str scheduledActionTypeValuesResumeCluster),
         ("cluster_identifier", .str r.clusterIdentifier)]
      | none => m
    let m : GoMap :=
      match t.pauseCluster with
      | some r =>
        [("action", .str scheduledActionTypeValuesPauseCluster),
         ("cluster_identifier", .str r.clusterIdentifier)]
      | none => m
    let m : GoMap :=
      match t.resizeCluster with
      | some r =>
        [("action", .str scheduledActionTypeValuesResizeCluster),
         ("cluster_identifier", .str r.clusterIdentifier),
         ("classic", .boolean r.classic),
         ("cluster_type", .str r.clusterType),
         ("node_type", .str r.nodeType),
         ("number_of_nodes", .goInt64 r.numberOfNodes)]
      | none => m
    m

/-- A resize `target_action` map holding every field with the type the
schema declares for it — in particular `number_of_nodes` as a Go `int`
(`TypeInt`). -/
def resizeSchemaTypedInput : GoMap :=
  [("action", .str "ResizeCluster"),
   ("cluster_identifier", .str "tf-redshift-cluster"),
   ("classic", .boolean true),
   ("cluster_type", .str "multi-node"),
   ("node_type", .str "dc2.large"),
   ("number_of_nodes", .goInt 2)]

end RedshiftScheduledAction

namespace ElastiCacheUserGroup

lemma classify_eq_pendingClass {p : PollPolicy} {s : String}
    (h1 : s ∈ p.pending) (h2 : s ∉ p.target) :
    classify p s = .pendingClass := by
  simp [classify, h1, h2]

lemma classify_eq_targetClass {p : PollPolicy} {s : String}
    (h : s ∈ p.target) : classify p s = .targetClass := by
  simp [classify, h]

lemma classify_eq_unexpectedClass {p : PollPolicy} {s : String}
    (h1 : s ∉ p.pending) (h2 : s ∉ p.target) :
    classify p s = .unexpectedClass := by
  simp [classify, h1, h2]

/-- Running the loop through a run of pending-classified labels consumes
them one by one: one refresh call and one `minInterval` sleep each, with
the timeout check passing throughout. -/
lemma pollAux_pending_run (p : PollPolicy) :
    ∀ (pre : List String), (∀ s ∈ pre, s ∈ p.pending ∧ s ∉ p.target) →
    ∀ (rest : List RefreshResult) (last : Option StatusSnapshot)
      (elapsed calls : Nat),
    ((elapsed + pre.length * p.minInterval : Nat) : Int) < p.timeout →
    pollAux p (pre.map (fun s => .found ⟨s⟩) ++ rest) last elapsed calls
      = pollAux p rest (lastSnap pre last)
          (elapsed + pre.length * p.minInterval) (calls + pre.length)
  | [], _, rest, last, elapsed, calls, _ => by
    simp [lastSnap]
  | s :: pre, hpre, rest, last, elapsed, calls, htime => by
    have hs := hpre s (List.mem_cons_self s pre)
    have hlen : (s :: pre).length * p.minInterval
        = p.minInterval + pre.length * p.minInterval := by
      simp [List.length_cons, Nat.succ_mul, Nat.add_comm]
    rw [hlen] at htime
    have hcheck : ¬ p.timeout ≤ (elapsed : Int) := by
      push_cast at htime ⊢
      omega
    rw [List.map_cons, List.cons_append, pollAux, if_neg hcheck,
      classify_eq_pendingClass hs.1 hs.2]
    have hrec := pollAux_pending_run p pre
      (fun t ht => hpre t (List.mem_cons_of_mem s ht))
      rest (some ⟨s⟩) (elapsed + p.minInterval) (calls + 1)
      (by push_cast at htime ⊢; omega)
    have e1 : elapsed + p.minInterval + pre.length * p.minInterval
        = elapsed + (s :: pre).length * p.minInterval := by
      rw [hlen]; omega
    have e2 : calls + 1 + pre.length = calls + (s :: pre).length := by
      simp [List.length_cons]; omega
    rw [hrec, e1, e2]
    simp only [lastSnap]

/-- C1: for every refresh sequence whose status labels are all in the
policy's pending set (and, per the spec's exactly-one-class invariant, not
in the target set) except the last, which is in the target set, and whose
pending run fits inside the timeout budget, Poll returns success carrying
the last StatusSnapshot after exactly one refresh call per label. -/
theorem poll_pending_then_target_success (p : PollPolicy) (pre : List String)
    (t : String) (hpre : ∀ s ∈ pre, s ∈ p.pending ∧ s ∉ p.target)
    (ht : t ∈ p.target)
    (htime : ((p.initialDelay + pre.length * p.minInterval : Nat) : Int) < p.timeout) :
    poll p ((pre ++ [t]).map (fun s => .found ⟨s⟩))
      = (some (.success ⟨t⟩), pre.length + 1) := by
  rw [poll, List.map_append,
    pollAux_pending_run p pre hpre _ none p.initialDelay 0 htime]
  have hcheck : ¬ p.timeout ≤ ((p.initialDelay + pre.length * p.minInterval : Nat) : Int) := by
    omega
  rw [List.map_singleton, pollAux, if_neg hcheck, classify_eq_targetClass ht]
  simp

/-- C1 witness: the spec's example scenario — create policy (pending
`["creating","modifying"]`, target `["active"]`, timeout 5m = 300s,
min interval 10s, initial delay 30s) and refresh sequence
`["creating","creating","active"]` — yields success("active") after
exactly 3 refresh calls. -/
theorem poll_pending_then_target_success_witness :
    poll (createPollPolicy 300)
      [.found ⟨"creating"⟩, .found ⟨"creating"⟩, .found ⟨"active"⟩]
      = (some (.success ⟨"active"⟩), 3) :=
  poll_pending_then_target_success (createPollPolicy 300)
    ["creating", "creating"] "active" (by decide) (by decide) (by decide)

/-- C2: a refresh sequence that, after a run of pending labels, produces a
label in neither the pending nor the target set makes Poll abort at that
point with `unexpectedState`; whatever follows in the sequence is never
consumed, so refresh is not invoked again. -/
theorem poll_unexpected_state_aborts (p : PollPolicy) (pre : List String)
    (u : String) (rest : List RefreshResult)
    (hpre : ∀ s ∈ pre, s ∈ p.pending ∧ s ∉ p.target)
    (hu1 : u ∉ p.pending) (hu2 : u ∉ p.target)
    (htime : ((p.initialDelay + pre.length * p.minInterval : Nat) : Int) < p.timeout) :
    poll p (pre.map (fun s => .found ⟨s⟩) ++ .found ⟨u⟩ :: rest)
      = (some (.unexpectedState ⟨u⟩), pre.length + 1) := by
  rw [poll, pollAux_pending_run p pre hpre _ none p.initialDelay 0 htime]
  have hcheck : ¬ p.timeout ≤ ((p.initialDelay + pre.length * p.minInterval : Nat) : Int) := by
    omega
  rw [pollAux, if_neg hcheck, classify_eq_unexpectedClass hu1 hu2]
  simp

/-- C2 witness: with the create policy, observing "failed" after one
"creating" aborts with `unexpectedState` after exactly 2 refresh calls,
even though two more refresh results were available. -/
theorem poll_unexpected_state_aborts_witness :
    poll (createPollPolicy 300)
      ([.found ⟨"creating"⟩] ++ .found ⟨"failed"⟩ ::
        [.found ⟨"creating"⟩, .found ⟨"active"⟩])
      = (some (.unexpectedState ⟨"failed"⟩), 2) :=
  poll_unexpected_state_aborts (createPollPolicy 300) ["creating"] "failed"
    [.found ⟨"creating"⟩, .found ⟨"active"⟩]
    (by decide) (by decide) (by decide) (by decide)

/-- C5: a refresh failure at call k (after a run of k-1 pending labels)
propagates immediately as the poll outcome `refreshErr`; the failed
refresh is not retried and nothing after it in the sequence is consumed. -/
theorem poll_refresh_failure_propagates (p : PollPolicy) (pre : List String)
    (e : String) (rest : List RefreshResult)
    (hpre : ∀ s ∈ pre, s ∈ p.pending ∧ s ∉ p.target)
    (htime : ((p.initialDelay + pre.length * p.minInterval : Nat) : Int) < p.timeout) :
    poll p (pre.map (fun s => .found ⟨s⟩) ++ .failure e :: rest)
      = (some (.refreshErr e), pre.length + 1) := by
  rw [poll, pollAux_pending_run p pre hpre _ none p.initialDelay 0 htime]
  have hcheck : ¬ p.timeout ≤ ((p.initialDelay + pre.length * p.minInterval : Nat) : Int) := by
    omega
  rw [pollAux, if_neg hcheck]
  simp

/-- C5 witness: with the create policy, a transport failure on the second
refresh call is the poll outcome after exactly 2 calls; the remaining
refresh results are never consumed. -/
theorem poll_refresh_failure_propagates_witness :
    poll (createPollPolicy 300)
      ([.found ⟨"creating"⟩] ++ .failure "connection reset" ::
        [.found ⟨"active"⟩])
      = (some (.refreshErr "connection reset"), 2) :=
  poll_refresh_failure_propagates (createPollPolicy 300) ["creating"]
    "connection reset" [.found ⟨"active"⟩] (by decide) (by decide)

/-- When the elapsed time has reached the timeout, the loop stops with a
timeout error regardless of what the refresh sequence still holds. -/
lemma pollAux_timeout_stop (p : PollPolicy) (seq : List RefreshResult)
    (last : Option StatusSnapshot) (elapsed calls : Nat)
    (hc : p.timeout ≤ (elapsed : Int)) :
    pollAux p seq last elapsed calls = (some (.timeoutErr last), calls) := by
  cases seq with
  | nil => rw [pollAux, if_pos hc]
  | cons r rest =>
    cases r with
    | found snap => rw [pollAux, if_pos hc]
    | notFound => rw [pollAux, if_pos hc]
    | failure e => rw [pollAux, if_pos hc]

/-- Helper for the timeout property: against a stream that keeps returning
the same pending-classified label, a budget that runs out within `n`
observations makes the loop report a timeout after some `k ≤ n` further
refresh calls, carrying the snapshot of that label (or the previous `last`
when the very first check already failed). -/
lemma pollAux_replicate_timeout (p : PollPolicy) (s : String)
    (hcl : classify p s = .pendingClass) :
    ∀ (n elapsed calls : Nat) (last : Option StatusSnapshot),
    p.timeout ≤ ((elapsed + n * p.minInterval : Nat) : Int) →
    ∃ k, k ≤ n ∧ (0 < k ∨ p.timeout ≤ (elapsed : Int)) ∧
      pollAux p (List.replicate n (.found ⟨s⟩)) last elapsed calls
        = (some (.timeoutErr (if k = 0 then last else some ⟨s⟩)), calls + k)
  | 0, elapsed, calls, last, hb => by
    have hc : p.timeout ≤ (elapsed : Int) := by simpa using hb
    refine ⟨0, le_refl 0, Or.inr hc, ?_⟩
    rw [pollAux_timeout_stop p _ last elapsed calls hc]
    simp
  | n + 1, elapsed, calls, last, hb => by
    by_cases hc : p.timeout ≤ (elapsed : Int)
    · refine ⟨0, Nat.zero_le _, Or.inr hc, ?_⟩
      rw [pollAux_timeout_stop p _ last elapsed calls hc]
      simp
    · obtain ⟨k, hk, _, heq⟩ := pollAux_replicate_timeout p s hcl n
        (elapsed + p.minInterval) (calls + 1) (some ⟨s⟩)
        (by
          have hre : elapsed + p.minInterval + n * p.minInterval
              = elapsed + (n + 1) * p.minInterval := by ring
          rw [hre]
          exact hb)
      refine ⟨k + 1, by omega, Or.inl (Nat.succ_pos k), ?_⟩
      rw [List.replicate_succ, pollAux, if_neg hc, hcl, heq,
        if_neg (Nat.succ_ne_zero k), ite_self]
      have harith : calls + 1 + k = calls + (k + 1) := by omega
      rw [harith]

/-- C3: for every policy whose initial delay is inside the timeout budget
and a refresh stream that always returns the same pending status, once
enough observations fit in `n` steps for the elapsed time to reach the
timeout, Poll returns `timeoutErr` carrying the last observed snapshot
after some `k` refresh calls with `1 ≤ k ≤ n`: refresh is not invoked
again after the timeout is reported. -/
theorem poll_always_pending_times_out (p : PollPolicy) (s : String)
    (hp : s ∈ p.pending) (hnt : s ∉ p.target)
    (hd : (p.initialDelay : Int) < p.timeout) (n : Nat)
    (hn : p.timeout ≤ ((p.initialDelay + n * p.minInterval : Nat) : Int)) :
    ∃ k, 1 ≤ k ∧ k ≤ n ∧
      poll p (List.replicate n (.found ⟨s⟩))
        = (some (.timeoutErr (some ⟨s⟩)), k) := by
  obtain ⟨k, hk, hpos, heq⟩ :=
    pollAux_replicate_timeout p s (classify_eq_pendingClass hp hnt)
      n p.initialDelay 0 none hn
  have hk0 : 0 < k := by
    rcases hpos with h | h
    · exact h
    · exact absurd h (not_le.mpr hd)
  refine ⟨k, hk0, hk, ?_⟩
  rw [poll, heq, if_neg (by omega : ¬ k = 0)]
  simp

/-- C3 witness: create policy with a 40s timeout (delay 30s, min interval
10s) and a stream of one "creating" observation: Poll reports a timeout
carrying the "creating" snapshot after exactly 1 refresh call. -/
theorem poll_always_pending_times_out_witness :
    ∃ k, 1 ≤ k ∧ k ≤ 1 ∧
      poll (createPollPolicy 40) (List.replicate 1 (.found ⟨"creating"⟩))
        = (some (.timeoutErr (some ⟨"creating"⟩)), k) :=
  poll_always_pending_times_out (createPollPolicy 40) "creating"
    (by decide) (by decide) (by decide) 1 (by decide)

/-- C4: absence-as-success is requested only by the delete call site's
policy (the create and update policies do not request it), and for every
policy that requests it, a refresh signalling "not found" on the first
call makes Poll return success immediately after that single refresh
call — no target-state label was ever observed, and nothing after the
first call is consumed. -/
theorem poll_absence_is_success (timeout : Int) (p : PollPolicy)
    (rest : List RefreshResult) (habs : p.absenceIsSuccess = true)
    (hd : (p.initialDelay : Int) < p.timeout) :
    (createPollPolicy timeout).absenceIsSuccess = false ∧
    (updatePollPolicy timeout).absenceIsSuccess = false ∧
    (deletePollPolicy timeout).absenceIsSuccess = true ∧
    poll p (.notFound :: rest) = (some .successAbsent, 1) := by
  refine ⟨rfl, rfl, rfl, ?_⟩
  rw [poll, pollAux, if_neg (not_le.mpr hd), habs]
  simp

/-- C4 witness: with the delete policy (timeout 300s), a first refresh
returning "not found" yields success after exactly 1 refresh call. -/
theorem poll_absence_is_success_witness :
    (createPollPolicy 300).absenceIsSuccess = false ∧
    (updatePollPolicy 300).absenceIsSuccess = false ∧
    (deletePollPolicy 300).absenceIsSuccess = true ∧
    poll (deletePollPolicy 300) [.notFound] = (some .successAbsent, 1) :=
  poll_absence_is_success 300 (deletePollPolicy 300) [] rfl (by decide)

/-- C6: against the create call site's policy, every status label —
including the empty string — is classified as exactly one of target,
pending, unexpected, and membership is decided by case-sensitive exact
string equality: the target class is exactly `{"active"}`, the pending
class exactly `{"creating","modifying"}`, and everything else (e.g.
"Active", "activex", "") is unexpected. -/
theorem classify_exactly_one_class (timeout : Int) (s : String) :
    (classify (createPollPolicy timeout) s = .targetClass ↔ s = "active") ∧
    (classify (createPollPolicy timeout) s = .pendingClass
      ↔ (s = "creating" ∨ s = "modifying")) ∧
    (classify (createPollPolicy timeout) s = .unexpectedClass
      ↔ (¬ s = "active" ∧ ¬ s = "creating" ∧ ¬ s = "modifying")) := by
  unfold classify createPollPolicy resourceAwsElasticacheUserGroupPendingStates
  by_cases h1 : s = "active" <;> by_cases h2 : s = "creating" <;>
    by_cases h3 : s = "modifying" <;>
    simp [h1, h2, h3]

/-- C7: for every policy with a zero or negative timeout, Poll fails on the
first check with a timeout error, before any refresh call is made. -/
theorem poll_nonpositive_timeout_fails_fast (p : PollPolicy)
    (seq : List RefreshResult) (h : p.timeout ≤ 0) :
    poll p seq = (some (.timeoutErr none), 0) := by
  have h' : p.timeout ≤ ((p.initialDelay : Nat) : Int) :=
    le_trans h (Int.ofNat_nonneg _)
  rw [poll, pollAux_timeout_stop p seq none p.initialDelay 0 h']

/-- C7 witness: the create policy with timeout 0 and an available
"creating" refresh result: Poll fails fast with 0 refresh calls. -/
theorem poll_nonpositive_timeout_fails_fast_witness :
    poll (createPollPolicy 0) [.found ⟨"creating"⟩]
      = (some (.timeoutErr none), 0) :=
  poll_nonpositive_timeout_fails_fast (createPollPolicy 0)
    [.found ⟨"creating"⟩] (by decide)

lemma strContains_right (a b : String) : strContains (a ++ b) b := by
  unfold strContains
  rw [String.data_append]
  exact (List.suffix_append _ _).isInfix

lemma strContains_middle (a b c : String) : strContains (a ++ b ++ c) b := by
  unfold strContains
  rw [String.data_append, String.data_append]
  exact List.infix_append _ _ _

/-- Appending on the left preserves a suffix occurrence: `c` occurs in
`a ++ (b ++ c)`. -/
lemma strContains_right_assoc (a b c : String) :
    strContains (a ++ (b ++ c)) c := by
  rw [← String.append_assoc]
  exact strContains_right _ _

/-- The update handler's wrapper interpolates the identifier via `%q`, so
its message contains the identifier whatever the wrapped error says. -/
lemma updateErrorMessage_contains_id (id m : String) :
    strContains (updateErrorMessage id m) id := by
  show strContains
    ("error updating ElastiCache User Group (\"" ++ id ++ "\"): " ++ m) id
  rw [String.append_assoc ("error updating ElastiCache User Group (\"" ++ id)]
  exact strContains_middle _ _ _

set_option maxRecDepth 8192 in
/-- C8 counterexample: for a failing poll of user group "tf-redis-users",
the create handler's final message for a timeout does not contain the
resource identifier, the delete handler's final message for the same
timeout does not contain it either, and for a propagated refresh failure
(whose wrapped error carries no status) the update handler's final message
does not contain the last observed status "creating" — each conjunct
refutes the claim that every failing poll outcome is surfaced with both
the identifier and the last known status. -/
theorem lifecycle_error_message_omissions :
    ¬ strContains
      (createErrorMessage
        ((pollFailureMessage (.timeoutErr (some ⟨"creating"⟩))).getD ""))
      "tf-redis-users" ∧
    ¬ strContains
      (deleteErrorMessage
        ((pollFailureMessage (.timeoutErr (some ⟨"creating"⟩))).getD ""))
      "tf-redis-users" ∧
    ¬ strContains
      (updateErrorMessage "tf-redis-users"
        ((pollFailureMessage (.refreshErr "connection reset")).getD ""))
      "creating" := by
  refine ⟨by decide, by decide, by decide⟩

/-- C8 amended: for every failing poll outcome — timeout with or without
an observed snapshot, unexpected state, or refresh failure — the update
handler's final error message contains the resource identifier; and for
the failing outcomes that carry a last observed snapshot (timeout after at
least one observation, unexpected state) the final messages of all three
handlers contain the last known status.  (The create and delete handlers'
messages do not, in general, contain the identifier, and a refresh
failure's message carries no status: see the counterexamples.) -/
theorem lifecycle_error_message_contents (id : String)
    (snap : StatusSnapshot) (e : String) :
    strContains
      (updateErrorMessage id
        ((pollFailureMessage (.timeoutErr (some snap))).getD "")) id ∧
    strContains
      (updateErrorMessage id
        ((pollFailureMessage (.timeoutErr none)).getD "")) id ∧
    strContains
      (updateErrorMessage id
        ((pollFailureMessage (.unexpectedState snap)).getD "")) id ∧
    strContains
      (updateErrorMessage id
        ((pollFailureMessage (.refreshErr e)).getD "")) id ∧
    strContains
      (updateErrorMessage id
        ((pollFailureMessage (.timeoutErr (some snap))).getD ""))
      snap.status ∧
    strContains
      (createErrorMessage
        ((pollFailureMessage (.timeoutErr (some snap))).getD ""))
      snap.status ∧
    strContains
      (deleteErrorMessage
        ((pollFailureMessage (.timeoutErr (some snap))).getD ""))
      snap.status ∧
    strContains
      (updateErrorMessage id
        ((pollFailureMessage (.unexpectedState snap)).getD ""))
      snap.status ∧
    strContains
      (createErrorMessage
        ((pollFailureMessage (.unexpectedState snap)).getD ""))
      snap.status ∧
    strContains
      (deleteErrorMessage
        ((pollFailureMessage (.unexpectedState snap)).getD ""))
      snap.status := by
  refine ⟨updateErrorMessage_contains_id id _,
    updateErrorMessage_contains_id id _,
    updateErrorMessage_contains_id id _,
    updateErrorMessage_contains_id id _, ?_, ?_, ?_, ?_, ?_, ?_⟩
  · exact strContains_right_assoc _ _ _
  · exact strContains_right_assoc _ _ _
  · exact strContains_right_assoc _ _ _
  · exact strContains_right_assoc _ _ _
  · exact strContains_right_assoc _ _ _
  · exact strContains_right_assoc _ _ _

/-- C10: when the old and new `user_ids` sets are equal (the same strings
are members of both), the update handler issues no `ModifyUserGroup` call
and starts no polling wait: the only remote mutation it may perform is the
tag update (exactly when `tags_all` changed in the commercial partition). -/
theorem update_equal_user_ids_only_tags
    (oldIds newIds : List String)
    (hasChangeExceptTagsAll hasChangeUserIds tagsAllChanged
      commercialPartition : Bool)
    (h : ∀ x, x ∈ oldIds ↔ x ∈ newIds) :
    resourceAwsElasticacheUserGroupUpdateActions oldIds newIds
      hasChangeExceptTagsAll hasChangeUserIds tagsAllChanged
      commercialPartition
      = if tagsAllChanged ∧ commercialPartition then [.updateTags]
        else [] := by
  have hrm : setDifference oldIds newIds = [] := by
    refine List.filter_eq_nil_iff.mpr (fun x hx => ?_)
    simp [List.elem_iff]
    exact (h x).mp hx
  have had : setDifference newIds oldIds = [] := by
    refine List.filter_eq_nil_iff.mpr (fun x hx => ?_)
    simp [List.elem_iff]
    exact (h x).mpr hx
  unfold resourceAwsElasticacheUserGroupUpdateActions
  rw [hrm, had]
  cases hasChangeExceptTagsAll <;> cases hasChangeUserIds <;> simp

/-- C10 witness: with equal user-id sets `["alice","bob"]`, a pending
tags change in the commercial partition, and every change flag raised,
the only remote action is the tag update. -/
theorem update_equal_user_ids_only_tags_witness :
    resourceAwsElasticacheUserGroupUpdateActions ["alice", "bob"]
      ["bob", "alice"] true true true true = [.updateTags] :=
  update_equal_user_ids_only_tags ["alice", "bob"] ["bob", "alice"]
    true true true true (by intro x; simp; tauto)

end ElastiCacheUserGroup

namespace RedshiftScheduledAction

/-- C9: evaluating the expand converter at a resize map whose fields carry
the schema's types shows the `.(int64)` type assertion on the
`number_of_nodes` value (a Go `int` under the schema's `TypeInt`)
panicking, so the expand/flatten round trip cannot preserve the six
fields; the pause and resume round trips, by contrast, do hold. -/
theorem expand_resize_panics_on_schema_int :
    expandRedshiftScheduledActionTargetAction (some resizeSchemaTypedInput)
        = none ∧
    (∀ ci : String,
      flattenRedshiftScheduledActionType
        ((expandRedshiftScheduledActionTargetAction
          (some [("action", .str "PauseCluster"),
                 ("cluster_identifier", .str ci)])).getD none)
        = [("action", .str "PauseCluster"),
           ("cluster_identifier", .str ci)]) ∧
    (∀ ci : String,
      flattenRedshiftScheduledActionType
        ((expandRedshiftScheduledActionTargetAction
          (some [("action", .str "ResumeCluster"),
                 ("cluster_identifier", .str ci)])).getD none)
        = [("action", .str "ResumeCluster"),
           ("cluster_identifier", .str ci)]) := by
  refine ⟨rfl, fun ci => rfl, fun ci => rfl⟩

end RedshiftScheduledAction
